import Mathlib

/-!
# Verification of the spectrum-analyzer trace codec

Shallow embedding of the trace-decoding core of `spectrum_analyzer.py`:
the binary-block decoder `_parseBinaryData` (source lines 227-239) and the
`get_trace` setting (source lines 51-66).

Modelling conventions:
* A Python 2 byte string is a `List ℕ` of byte values (each in 0..255).
* Python floats are modelled in exact rational arithmetic (`ℚ`): each float
  operation is represented by the exact value it ideally computes.
* Fallible Python operations return `Except PyErr _`.  Deliberate `raise`
  statements in the source map to the distinguished constructors
  `handlerError` (the labrad `errors.HandlerError`, the spec's
  `MalformedBlockError`) and `dataOutOfRange` (the bare
  `Exception('data out of range')`, the spec's `InvalidArgument`); exceptions
  raised by library primitives (`IndexError`, `ValueError` from `int()`,
  `struct.error` from `unpack`, `ZeroDivisionError` from float division)
  map to the remaining generic constructors.
-/

/-- The exceptions the embedded code can raise. -/
inductive PyErr : Type where
  /-- `IndexError`: string index out of range. -/
  | indexError : PyErr
  /-- `ValueError`: `int()` applied to a string that is not a decimal literal. -/
  | valueError : PyErr
  /-- `errors.HandlerError('Could not decode binary response.')` — the one
  deliberately raised, typed decode error (the spec's `MalformedBlockError`). -/
  | handlerError : PyErr
  /-- `struct.error`: the byte string handed to `unpack` does not have the
  exact size the format string requires (a generic library exception). -/
  | structError : PyErr
  /-- The bare `Exception('data out of range')` raised by `get_trace` for a
  trace index outside 1..3 (the spec's `InvalidArgument`). -/
  | dataOutOfRange : PyErr
  /-- `ZeroDivisionError`: float division by zero. -/
  | zeroDivisionError : PyErr
deriving DecidableEq, Repr

deriving instance DecidableEq for Except

/-- `data[i]` on a Python 2 string with a non-negative literal index:
the byte at position `i`, or `IndexError` when the string is too short. -/
def pyIndexChar (data : List ℕ) (i : ℕ) : Except PyErr ℕ :=
  match data.get? i with
  | some c => Except.ok c
  | none => Except.error PyErr.indexError

/-- An ASCII decimal digit `'0'..'9'`. -/
def isPyDigit (c : ℕ) : Bool := 48 ≤ c && c ≤ 57

/-- ASCII whitespace, which Python 2's `int()` strips from both ends. -/
def isPySpace (c : ℕ) : Bool := c == 32 || (9 ≤ c && c ≤ 13)

/-- Value of a string of ASCII digits read left to right. -/
def digitsVal (digs : List ℕ) : ℕ :=
  digs.foldl (fun acc c => acc * 10 + (c - 48)) 0

/-- Python 2 `int(s)` on a byte string: strip ASCII whitespace from both ends,
allow one optional `'+'` or `'-'` sign, then require a non-empty run of
decimal digits; anything else raises `ValueError`. -/
def pyStrToInt (s : List ℕ) : Except PyErr ℤ :=
  let t := ((s.dropWhile isPySpace).reverse.dropWhile isPySpace).reverse
  match t with
  | [] => Except.error PyErr.valueError
  | c :: rest =>
    let sign : ℤ := if c = 45 then -1 else 1
    let digs := if c = 45 ∨ c = 43 then rest else c :: rest
    if digs.isEmpty || !digs.all isPyDigit then Except.error PyErr.valueError
    else Except.ok (sign * (digitsVal digs : ℤ))

/-- The unsigned big-endian 32-bit value of four bytes. -/
def toUInt32BE (b0 b1 b2 b3 : ℕ) : ℕ :=
  ((b0 * 256 + b1) * 256 + b2) * 256 + b3

/-- The big-endian two's-complement signed 32-bit integer encoded by four
bytes — the value `unpack('>l', _)` yields for one sample. -/
def toInt32BE (b0 b1 b2 b3 : ℕ) : ℤ :=
  let u := toUInt32BE b0 b1 b2 b3
  if u < 2 ^ 31 then (u : ℤ) else (u : ℤ) - 2 ^ 32

/-- Split a byte string into consecutive 4-byte big-endian signed integers,
in order; a trailing fragment shorter than 4 bytes yields no group (it is
ruled out separately by `unpackInt32BE`'s exact-size check). -/
def int32Groups : List ℕ → List ℤ
  | b0 :: b1 :: b2 :: b3 :: rest => toInt32BE b0 b1 b2 b3 :: int32Groups rest
  | _ => []

/-- `unpack('>' + 'l'*n, s)`: requires `s` to have exactly the `4*n` bytes the
format string `'>lll…l'` describes, else raises `struct.error`; on success
yields the `n` big-endian signed 32-bit integers. -/
def unpackInt32BE (n : ℕ) (s : List ℕ) : Except PyErr (List ℤ) :=
  if s.length = 4 * n then Except.ok (int32Groups s)
  else Except.error PyErr.structError

/-- `_parseBinaryData` (source lines 227-239), line by line:
`h = int(data[1])` (a single character, so `h` is a digit value 0..9 or
`ValueError`); `d = int(data[2:2+h])`; `s = data[2+h:]`;
`if len(s) != d: raise errors.HandlerError(...)`; `n = d/4` (Python 2 floor
division; at this point `d = len(s) ≥ 0`, so `Int.toNat` then `Nat` division
agrees); `data = unpack('>'+'l'*n, s)`; `data = [d/1000.0 for d in data]`. -/
def _parseBinaryData (data : List ℕ) : Except PyErr (List ℚ) :=
  match pyIndexChar data 1 with
  | Except.error e => Except.error e
  | Except.ok c =>
    match pyStrToInt [c] with
    | Except.error e => Except.error e
    | Except.ok h =>
      match pyStrToInt ((data.drop 2).take h.toNat) with
      | Except.error e => Except.error e
      | Except.ok d =>
        let s := data.drop (2 + h.toNat)
        if (s.length : ℤ) ≠ d then Except.error PyErr.handlerError
        else
          match unpackInt32BE (d.toNat / 4) s with
          | Except.error e => Except.error e
          | Except.ok ints => Except.ok (ints.map fun (v : ℤ) => (v : ℚ) / 1000)

/-- The instrument collaborator seen by `get_trace`, reduced to the three
queries the code issues: the scalar responses are modelled as the rational
value `float()` parses from them, the trace-query response as its raw bytes. -/
structure Instrument where
  /-- `float(dev.query(':FREQ:STAR?'))` — start frequency in Hz. -/
  startFreqResp : ℚ
  /-- `float(dev.query(':FREQ:SPAN?'))` — span in Hz. -/
  spanResp : ℚ
  /-- Raw byte response to `__QUERY__ % trace` for a given trace number. -/
  traceResp : ℕ → List ℕ

/-- `__QUERY__ % trace` (source lines 42-45). -/
def traceQuery (trace : ℕ) : String :=
  ":FORM INT,32\n:FORM:BORD NORM\n:TRAC? TRACE" ++ toString trace

/-- `get_trace` (source lines 55-66).  The setting's `data` argument has
labrad type `w` (an unsigned word), hence `ℕ`.  Alongside the result we
return the list of queries issued to the instrument, in order, so that
"no instrument I/O occurred" is expressible as an empty list.  Line by line:
`if data < 1 or data > 3: raise Exception('data out of range')` (before any
query); three `dev.query` calls; `vals = _parseBinaryData(resp)`;
`n = len(vals)`; `returnValue((start/1.0e6, span/1.0e6/(n-1), vals))`, where
the float division by `n-1` raises `ZeroDivisionError` exactly when
`n - 1 == 0`. -/
def get_trace (dev : Instrument) (data : ℕ) :
    Except PyErr (ℚ × ℚ × List ℚ) × List String :=
  if data < 1 ∨ data > 3 then (Except.error PyErr.dataOutOfRange, [])
  else
    let trace := data
    let start := dev.startFreqResp
    let span := dev.spanResp
    let queries := [":FREQ:STAR?", ":FREQ:SPAN?", traceQuery trace]
    match _parseBinaryData (dev.traceResp trace) with
    | Except.error e => (Except.error e, queries)
    | Except.ok vals =>
      let n := vals.length
      if n = 1 then (Except.error PyErr.zeroDivisionError, queries)
      else (Except.ok (start / 1000000, span / 1000000 / ((n : ℚ) - 1), vals),
            queries)

/-- The setting declares its first two return values with labrad unit `MHz`
(`returns=['v[MHz] {start} v[MHz] {step} *v {y-values}']`, source line 54):
a returned number `x` denotes the physical frequency `x` MHz.  Expressing
that quantity in Hz multiplies it by `10^6`. -/
def MHzToHz (x : ℚ) : ℚ := x * 1000000

/-! ## Concrete instruments used to evaluate the theorems -/

/-- Start 1 GHz (`1e9` Hz), span 100 MHz (`1e8` Hz); the trace response is
the block `"#220"` followed by 20 payload bytes encoding the big-endian
signed integers 1000, 2000, 3000, 4000, 5000 (a 5-sample trace). -/
def instr5 : Instrument :=
  ⟨1000000000, 100000000, fun _ =>
    [35, 50, 50, 48, 0, 0, 3, 232, 0, 0, 7, 208, 0, 0, 11, 184,
     0, 0, 15, 160, 0, 0, 19, 136]⟩

/-- Same frequencies, but the trace response `"#10"` declares an empty
payload (a 0-sample trace). -/
def instrEmpty : Instrument := ⟨1000000000, 100000000, fun _ => [35, 49, 48]⟩

/-- Same frequencies, but the trace response `"#14"` holds a single sample
encoding 1000 (a 1-sample trace). -/
def instrOne : Instrument :=
  ⟨1000000000, 100000000, fun _ => [35, 49, 52, 0, 0, 3, 232]⟩

/-- An inert instrument, used to check that index validation precedes I/O. -/
def instrDummy : Instrument := ⟨0, 0, fun _ => []⟩

/-! ## Helper lemmas -/

lemma pyIndexChar_of_lt (data : List ℕ) (i : ℕ) (hi : i < data.length) :
    pyIndexChar data i = Except.ok (data.getD i 0) := by
  rw [pyIndexChar, List.get?_eq_getElem?, List.getElem?_eq_getElem hi,
    List.getD_eq_getElem _ _ hi]

lemma pyStrToInt_single_nondigit (c : ℕ) (hc : isPyDigit c = false) :
    pyStrToInt [c] = Except.error PyErr.valueError := by
  by_cases hsp : isPySpace c = true
  · simp [pyStrToInt, List.dropWhile, hsp]
  · simp only [Bool.not_eq_true] at hsp
    by_cases h45 : c = 45
    · simp [pyStrToInt, List.dropWhile, hsp, h45, isPySpace]
    · by_cases h43 : c = 43
      · simp [pyStrToInt, List.dropWhile, hsp, h45, h43, isPySpace]
      · simp [pyStrToInt, List.dropWhile, hsp, h45, h43, List.all_cons, hc]

lemma int32Groups_range (n : ℕ) :
    ∀ s : List ℕ, s.length = 4 * n →
      int32Groups s = (List.range n).map fun i =>
        toInt32BE (s.getD (4 * i) 0) (s.getD (4 * i + 1) 0)
          (s.getD (4 * i + 2) 0) (s.getD (4 * i + 3) 0) := by
  induction n with
  | zero =>
    intro s hs
    have : s = [] := List.eq_nil_of_length_eq_zero (by simpa using hs)
    subst this
    simp [int32Groups]
  | succ n ih =>
    intro s hs
    match s with
    | [] =>
      simp only [List.length_nil] at hs; omega
    | [b0] =>
      simp only [List.length_cons, List.length_nil] at hs; omega
    | [b0, b1] =>
      simp only [List.length_cons, List.length_nil] at hs; omega
    | [b0, b1, b2] =>
      simp only [List.length_cons, List.length_nil] at hs; omega
    | b0 :: b1 :: b2 :: b3 :: rest =>
      have hr : rest.length = 4 * n := by
        simp only [List.length_cons] at hs; omega
      rw [int32Groups, ih rest hr, List.range_succ_eq_map, List.map_cons,
        List.map_map]
      rfl

/-! ## Claim C1 -/

/-- **C1.** For every input block whose declared payload length `d` is a
non-negative multiple of 4 and whose actual payload contains exactly `d`
bytes, `_parseBinaryData` returns exactly `d/4` samples, where the sample at
position `i` is the big-endian two's-complement signed 32-bit integer read
from payload bytes `4i..4i+3`, divided by 1000, in original order.  The
framing hypotheses say the block parses: byte 1 holds the digit count `h` and
the next `h` bytes spell the decimal integer `d`. -/
theorem parse_multiple4_ok (data : List ℕ) (c : ℕ) (h d : ℤ)
    (hc : pyIndexChar data 1 = Except.ok c)
    (hh : pyStrToInt [c] = Except.ok h)
    (hd : pyStrToInt ((data.drop 2).take h.toNat) = Except.ok d)
    (hd0 : 0 ≤ d) (hd4 : d % 4 = 0)
    (hlen : (((data.drop (2 + h.toNat)).length : ℤ)) = d) :
    _parseBinaryData data = Except.ok ((List.range (d.toNat / 4)).map fun i =>
      ((toInt32BE ((data.drop (2 + h.toNat)).getD (4 * i) 0)
          ((data.drop (2 + h.toNat)).getD (4 * i + 1) 0)
          ((data.drop (2 + h.toNat)).getD (4 * i + 2) 0)
          ((data.drop (2 + h.toNat)).getD (4 * i + 3) 0) : ℤ) : ℚ) / 1000) := by
  have hlen' : (data.drop (2 + h.toNat)).length = d.toNat := by omega
  have hmod : d.toNat % 4 = 0 := by omega
  have hsz : (data.drop (2 + h.toNat)).length = 4 * (d.toNat / 4) := by
    rw [hlen']; omega
  simp only [_parseBinaryData, hc, hh, hd, hlen]
  rw [if_neg (by simp)]
  rw [unpackInt32BE, if_pos hsz]
  rw [int32Groups_range (d.toNat / 4) _ hsz]
  simp [List.map_map, Function.comp]

/-- Witness for C1: the concrete block `"#18"` followed by the 8 payload bytes
encoding `1000` and `-2000` satisfies every hypothesis, and the theorem then
evaluates the decoder on it. -/
theorem parse_multiple4_ok_witness :
    pyIndexChar [35, 49, 56, 0, 0, 3, 232, 255, 255, 248, 48] 1 =
        Except.ok 49 ∧
    pyStrToInt [49] = Except.ok 1 ∧
    pyStrToInt (([35, 49, 56, 0, 0, 3, 232, 255, 255, 248, 48].drop 2).take
        (1 : ℤ).toNat) = Except.ok 8 ∧
    _parseBinaryData [35, 49, 56, 0, 0, 3, 232, 255, 255, 248, 48] =
      Except.ok ((List.range ((8 : ℤ).toNat / 4)).map fun i =>
        ((toInt32BE
          (([35, 49, 56, 0, 0, 3, 232, 255, 255, 248, 48].drop
              (2 + (1 : ℤ).toNat)).getD (4 * i) 0)
          (([35, 49, 56, 0, 0, 3, 232, 255, 255, 248, 48].drop
              (2 + (1 : ℤ).toNat)).getD (4 * i + 1) 0)
          (([35, 49, 56, 0, 0, 3, 232, 255, 255, 248, 48].drop
              (2 + (1 : ℤ).toNat)).getD (4 * i + 2) 0)
          (([35, 49, 56, 0, 0, 3, 232, 255, 255, 248, 48].drop
              (2 + (1 : ℤ).toNat)).getD (4 * i + 3) 0) : ℤ) : ℚ) / 1000) :=
  ⟨by decide, by decide, by decide,
    parse_multiple4_ok [35, 49, 56, 0, 0, 3, 232, 255, 255, 248, 48] 49 1 8
      (by decide) (by decide) (by decide) (by decide) (by decide) (by decide)⟩

/-! ## Claim C5 -/

/-- **C5.** For every input block whose declared payload length `d` differs
from the number of payload bytes actually present, `_parseBinaryData` fails
with the typed `HandlerError` (the spec's `MalformedBlockError`) and returns
no partial sample sequence. -/
theorem parse_length_mismatch_handlerError (data : List ℕ) (c : ℕ) (h d : ℤ)
    (hc : pyIndexChar data 1 = Except.ok c)
    (hh : pyStrToInt [c] = Except.ok h)
    (hd : pyStrToInt ((data.drop 2).take h.toNat) = Except.ok d)
    (hne : (((data.drop (2 + h.toNat)).length : ℤ)) ≠ d) :
    _parseBinaryData data = Except.error PyErr.handlerError := by
  simp only [_parseBinaryData, hc, hh, hd]
  rw [if_pos hne]

/-- Witness for C5: the block `"#12"` declares 2 payload bytes but carries
only one. -/
theorem parse_length_mismatch_handlerError_witness :
    pyIndexChar [35, 49, 50, 7] 1 = Except.ok 49 ∧
    pyStrToInt [49] = Except.ok 1 ∧
    pyStrToInt (([35, 49, 50, 7].drop 2).take (1 : ℤ).toNat) = Except.ok 2 ∧
    ((([35, 49, 50, 7].drop (2 + (1 : ℤ).toNat)).length : ℤ)) ≠ 2 ∧
    _parseBinaryData [35, 49, 50, 7] = Except.error PyErr.handlerError :=
  ⟨by decide, by decide, by decide, by decide,
    parse_length_mismatch_handlerError [35, 49, 50, 7] 49 1 2
      (by decide) (by decide) (by decide) (by decide)⟩

/-! ## Claim C8 -/

/-- **C8.** For every well-framed input block with declared payload length
`d = 0` and an empty payload matching that declaration, `_parseBinaryData`
succeeds and returns the empty sample sequence. -/
theorem parse_empty_payload_ok (data : List ℕ) (c : ℕ) (h : ℤ)
    (hc : pyIndexChar data 1 = Except.ok c)
    (hh : pyStrToInt [c] = Except.ok h)
    (hd : pyStrToInt ((data.drop 2).take h.toNat) = Except.ok 0)
    (hpay : data.drop (2 + h.toNat) = []) :
    _parseBinaryData data = Except.ok [] := by
  simp only [_parseBinaryData, hc, hh, hd, hpay]
  simp [unpackInt32BE, int32Groups]

/-- Witness for C8: the block `"#10"` (declared length 0, empty payload). -/
theorem parse_empty_payload_ok_witness :
    pyIndexChar [35, 49, 48] 1 = Except.ok 49 ∧
    pyStrToInt [49] = Except.ok 1 ∧
    pyStrToInt (([35, 49, 48].drop 2).take (1 : ℤ).toNat) = Except.ok 0 ∧
    [35, 49, 48].drop (2 + (1 : ℤ).toNat) = [] ∧
    _parseBinaryData [35, 49, 48] = Except.ok [] :=
  ⟨by decide, by decide, by decide, by decide,
    parse_empty_payload_ok [35, 49, 48] 49 1
      (by decide) (by decide) (by decide) (by decide)⟩

/-! ## Claim C4 -/

/-- **C4 counterexample.**  The block `"#15"` followed by 5 payload bytes has
a declared length that is not a multiple of 4; the decoder fails with the
generic `struct.error` from `unpack`, not with the typed
`HandlerError`/`MalformedBlockError` the claim names. -/
theorem parse_nonmultiple4_not_typed_cex :
    _parseBinaryData [35, 49, 53, 1, 2, 3, 4, 5] =
      Except.error PyErr.structError ∧
    _parseBinaryData [35, 49, 53, 1, 2, 3, 4, 5] ≠
      Except.error PyErr.handlerError :=
  ⟨by decide, by decide⟩

/-- **C4 amended.** For every input block whose declared payload length `d`
is not a multiple of 4 while the actual payload does contain `d` bytes, the
decoder fails — returning no truncated result — but with the generic
`struct.error` (the `unpack` size mismatch), not the typed
`HandlerError`/`MalformedBlockError`: the length-alignment case never reaches
the decoder's own deliberate raise. -/
theorem parse_nonmultiple4_structError (data : List ℕ) (c : ℕ) (h d : ℤ)
    (hc : pyIndexChar data 1 = Except.ok c)
    (hh : pyStrToInt [c] = Except.ok h)
    (hd : pyStrToInt ((data.drop 2).take h.toNat) = Except.ok d)
    (hd4 : d % 4 ≠ 0)
    (hlen : (((data.drop (2 + h.toNat)).length : ℤ)) = d) :
    _parseBinaryData data = Except.error PyErr.structError := by
  have hne : (data.drop (2 + h.toNat)).length ≠ 4 * (d.toNat / 4) := by omega
  simp only [_parseBinaryData, hc, hh, hd, hlen]
  rw [if_neg (by simp)]
  rw [unpackInt32BE, if_neg hne]

/-- Witness for the amended C4: the same `"#15"` block satisfies every
hypothesis of the amended theorem. -/
theorem parse_nonmultiple4_structError_witness :
    pyIndexChar [35, 49, 53, 1, 2, 3, 4, 5] 1 = Except.ok 49 ∧
    pyStrToInt [49] = Except.ok 1 ∧
    pyStrToInt (([35, 49, 53, 1, 2, 3, 4, 5].drop 2).take (1 : ℤ).toNat) =
      Except.ok 5 ∧
    (5 : ℤ) % 4 ≠ 0 ∧
    ((([35, 49, 53, 1, 2, 3, 4, 5].drop (2 + (1 : ℤ).toNat)).length : ℤ)) =
      5 ∧
    _parseBinaryData [35, 49, 53, 1, 2, 3, 4, 5] =
      Except.error PyErr.structError :=
  ⟨by decide, by decide, by decide, by decide, by decide,
    parse_nonmultiple4_structError [35, 49, 53, 1, 2, 3, 4, 5] 49 1 5
      (by decide) (by decide) (by decide) (by decide) (by decide)⟩

/-! ## Claim C9 -/

/-- **C9 counterexample.**  The two-byte input `"#a"` has a non-digit
header-length character; the decoder fails with the generic `ValueError`
raised by `int()`, not with the typed `HandlerError`/`MalformedBlockError`
the claim names. -/
theorem parse_nondigit_not_typed_cex :
    _parseBinaryData [35, 97] = Except.error PyErr.valueError ∧
    _parseBinaryData [35, 97] ≠ Except.error PyErr.handlerError :=
  ⟨by decide, by decide⟩

/-- **C9 amended.** For every input block of length at least 2 whose byte 1
is not an ASCII digit, the decoder fails with the generic `ValueError` from
`int()`, not with the typed `HandlerError`/`MalformedBlockError` (and the
marker byte itself is never checked at all, so a missing marker is not a
detected condition — see the C10 theorem). -/
theorem parse_nondigit_header_valueError (data : List ℕ)
    (hlen : 2 ≤ data.length) (hnd : isPyDigit (data.getD 1 0) = false) :
    _parseBinaryData data = Except.error PyErr.valueError := by
  have hc := pyIndexChar_of_lt data 1 (by omega)
  simp only [_parseBinaryData, hc,
    pyStrToInt_single_nondigit (data.getD 1 0) hnd]

/-- Witness for the amended C9: the input `"#a"`. -/
theorem parse_nondigit_header_valueError_witness :
    2 ≤ [35, 97].length ∧
    isPyDigit ([35, 97].getD 1 0) = false ∧
    _parseBinaryData [35, 97] = Except.error PyErr.valueError :=
  ⟨by decide, by decide,
    parse_nondigit_header_valueError [35, 97] (by decide) (by decide)⟩

/-! ## Claim C10 -/

/-- **C10.** The decoder never inspects byte 0 (the marker position): two
inputs of length at least 2 that agree everywhere except at byte 0 decode to
the same result — the same samples or the same error — so any leading
character, not only `'#'`, is accepted. -/
theorem parse_ignores_marker (a b : ℕ) (t : List ℕ) (_ht : 1 ≤ t.length) :
    _parseBinaryData (a :: t) = _parseBinaryData (b :: t) := by
  have key : ∀ x : ℕ, 2 + x = x + 2 := fun x => Nat.add_comm 2 x
  simp only [_parseBinaryData, key]
  rfl

/-- Witness for C10: replacing the marker `'#'` (35) of the block `"#10"`
with `'X'` (88) leaves the decoded result unchanged. -/
theorem parse_ignores_marker_witness :
    1 ≤ [49, 48].length ∧
    _parseBinaryData (35 :: [49, 48]) = _parseBinaryData (88 :: [49, 48]) :=
  ⟨by decide, parse_ignores_marker 35 88 [49, 48] (by decide)⟩

/-! ## Claim C7 -/

/-- **C7.** For every trace index outside `{1,2,3}`, `get_trace` fails with
the argument-validation error (`Exception('data out of range')`, the spec's
`InvalidArgument`) and the list of queries issued to the instrument is empty:
validation happens before any instrument I/O. -/
theorem get_trace_invalid_index_no_io (dev : Instrument) (data : ℕ)
    (hbad : data < 1 ∨ data > 3) :
    get_trace dev data = (Except.error PyErr.dataOutOfRange, []) := by
  simp only [get_trace, if_pos hbad]

/-- Witness for C7: indices 0 and 4, against an instrument that is never
touched. -/
theorem get_trace_invalid_index_no_io_witness :
    ((0 : ℕ) < 1 ∨ (0 : ℕ) > 3) ∧ ((4 : ℕ) < 1 ∨ (4 : ℕ) > 3) ∧
    get_trace instrDummy 0 = (Except.error PyErr.dataOutOfRange, []) ∧
    get_trace instrDummy 4 = (Except.error PyErr.dataOutOfRange, []) :=
  ⟨by decide, by decide,
    get_trace_invalid_index_no_io instrDummy 0 (by decide),
    get_trace_invalid_index_no_io instrDummy 4 (by decide)⟩

/-! ## Claim C2 -/

/-- **C2.** For every successful `get_trace` call — valid index, block
decoded to `vals`, and `len(vals) ≠ 1` so the step division succeeds — the
returned pair is `(start/10^6, span/10^6/(n-1))`, which the setting tags with
unit `MHz` (source line 54); expressed in Hz, the returned start frequency
equals the queried `start` exactly and the returned step equals `span/(n-1)`
exactly. -/
theorem get_trace_axis_hz (dev : Instrument) (data : ℕ)
    (hlo : 1 ≤ data) (hhi : data ≤ 3) (vals : List ℚ)
    (hp : _parseBinaryData (dev.traceResp data) = Except.ok vals)
    (hn : vals.length ≠ 1) :
    (get_trace dev data).1 = Except.ok (dev.startFreqResp / 1000000,
        dev.spanResp / 1000000 / ((vals.length : ℚ) - 1), vals) ∧
    MHzToHz (dev.startFreqResp / 1000000) = dev.startFreqResp ∧
    MHzToHz (dev.spanResp / 1000000 / ((vals.length : ℚ) - 1)) =
      dev.spanResp / ((vals.length : ℚ) - 1) := by
  refine ⟨?_, ?_, ?_⟩
  · simp only [get_trace, hp]
    rw [if_neg (by omega : ¬(data < 1 ∨ data > 3)), if_neg hn]
  · rw [MHzToHz, div_mul_cancel₀ _ (by norm_num : (1000000 : ℚ) ≠ 0)]
  · rw [MHzToHz, div_div, mul_comm (1000000 : ℚ) ((vals.length : ℚ) - 1),
      ← div_div, div_mul_cancel₀ _ (by norm_num : (1000000 : ℚ) ≠ 0)]

/-- Witness for C2, the spec's own example: start `1e9` Hz, span `1e8` Hz,
5-sample trace; expressed in Hz the output is start `1e9` and step
`25_000_000`. -/
theorem get_trace_axis_hz_witness :
    _parseBinaryData (instr5.traceResp 1) = Except.ok [1, 2, 3, 4, 5] ∧
    ([1, 2, 3, 4, 5] : List ℚ).length ≠ 1 ∧
    (get_trace instr5 1).1 = Except.ok (instr5.startFreqResp / 1000000,
        instr5.spanResp / 1000000 /
          (((([1, 2, 3, 4, 5] : List ℚ).length) : ℚ) - 1), [1, 2, 3, 4, 5]) ∧
    MHzToHz (instr5.startFreqResp / 1000000) = 1000000000 ∧
    MHzToHz (instr5.spanResp / 1000000 /
        (((([1, 2, 3, 4, 5] : List ℚ).length) : ℚ) - 1)) = 25000000 := by
  have hp : _parseBinaryData (instr5.traceResp 1) =
      Except.ok [1, 2, 3, 4, 5] := by
    rw [show _parseBinaryData (instr5.traceResp 1) =
        Except.ok ([toInt32BE 0 0 3 232, toInt32BE 0 0 7 208,
          toInt32BE 0 0 11 184, toInt32BE 0 0 15 160,
          toInt32BE 0 0 19 136].map fun (v : ℤ) => (v : ℚ) / 1000) from rfl]
    norm_num [toInt32BE, toUInt32BE]
  have h := get_trace_axis_hz instr5 1 (by decide) (by decide)
    [1, 2, 3, 4, 5] hp (by decide)
  refine ⟨hp, by decide, h.1, ?_, ?_⟩
  · rw [h.2.1]
    rfl
  · rw [h.2.2]
    norm_num [instr5]

/-! ## Claim C3 -/

/-- **C3 counterexample.**  The claim says `get_trace` fails whenever the
decoded trace has `n ≤ 1` samples.  For `n = 0` it does not fail: with start
`1e9` Hz and span `1e8` Hz and an empty trace, the code returns a result —
`span/1.0e6/(0-1) = -100` (MHz) as the step — instead of an error. -/
theorem get_trace_empty_trace_ok_cex :
    (get_trace instrEmpty 1).1 = Except.ok (1000, -100, ([] : List ℚ)) := by
  have h0 : (get_trace instrEmpty 1).1 =
      Except.ok ((1000000000 : ℚ) / 1000000,
        (100000000 : ℚ) / 1000000 / (((([] : List ℚ).length) : ℚ) - 1),
        ([] : List ℚ)) := rfl
  rw [h0]
  norm_num

/-- **C3 amended.** For every `get_trace` call with a valid index whose block
decodes to `vals` with `n = len(vals)`: if `n = 1` the call fails with
`ZeroDivisionError` (the float division by `n-1`); if `n ≠ 1` — including
`n = 0` — the call succeeds and returns step `span/10^6/(n-1)`, i.e. exactly
`span/(n-1)` expressed in Hz (for `n = 0` that is `-span`, not an error). -/
theorem get_trace_step_cases (dev : Instrument) (data : ℕ)
    (hlo : 1 ≤ data) (hhi : data ≤ 3) (vals : List ℚ)
    (hp : _parseBinaryData (dev.traceResp data) = Except.ok vals) :
    (vals.length = 1 →
      (get_trace dev data).1 = Except.error PyErr.zeroDivisionError) ∧
    (vals.length ≠ 1 →
      (get_trace dev data).1 = Except.ok (dev.startFreqResp / 1000000,
          dev.spanResp / 1000000 / ((vals.length : ℚ) - 1), vals) ∧
      MHzToHz (dev.spanResp / 1000000 / ((vals.length : ℚ) - 1)) =
        dev.spanResp / ((vals.length : ℚ) - 1)) := by
  constructor
  · intro h1
    simp only [get_trace, hp]
    rw [if_neg (by omega : ¬(data < 1 ∨ data > 3)), if_pos h1]
  · intro hn
    constructor
    · simp only [get_trace, hp]
      rw [if_neg (by omega : ¬(data < 1 ∨ data > 3)), if_neg hn]
    · rw [MHzToHz, div_div, mul_comm (1000000 : ℚ) ((vals.length : ℚ) - 1),
        ← div_div, div_mul_cancel₀ _ (by norm_num : (1000000 : ℚ) ≠ 0)]

/-- Witness for the amended C3: a 1-sample trace makes `get_trace` fail with
`ZeroDivisionError`. -/
theorem get_trace_step_cases_witness :
    _parseBinaryData (instrOne.traceResp 1) = Except.ok [1] ∧
    (get_trace instrOne 1).1 = Except.error PyErr.zeroDivisionError := by
  have hp : _parseBinaryData (instrOne.traceResp 1) = Except.ok [1] := by
    rw [show _parseBinaryData (instrOne.traceResp 1) =
        Except.ok ([toInt32BE 0 0 3 232].map
          fun (v : ℤ) => (v : ℚ) / 1000) from rfl]
    norm_num [toInt32BE, toUInt32BE]
  exact ⟨hp,
    (get_trace_step_cases instrOne 1 (by decide) (by decide) [1] hp).1 rfl⟩

/-! ## Claim C6 -/

/-- **C6 counterexample.**  On the spec's own round-trip input — header
`"#28"` followed by the 8 payload bytes for 1000 and -2000 — decoding does
not yield `[1.0, -2.0]`: byte 1 declares `h = 2` header-length digits, so the
length field is the two bytes `"8\x00"`, which `int()` rejects with a
`ValueError`. -/
theorem parse_hash28_fails_cex :
    _parseBinaryData [35, 50, 56, 0, 0, 3, 232, 255, 255, 248, 48] =
      Except.error PyErr.valueError ∧
    _parseBinaryData [35, 50, 56, 0, 0, 3, 232, 255, 255, 248, 48] ≠
      Except.ok [1, -2] :=
  ⟨by decide, by decide⟩

/-- **C6 amended.** Decoding the block whose header declares one length digit
— `"#18"` — followed by the 8 payload bytes representing the big-endian
signed integers 1000 and -2000 succeeds and yields exactly `[1.0, -2.0]`. -/
theorem parse_hash18_roundtrip :
    _parseBinaryData [35, 49, 56, 0, 0, 3, 232, 255, 255, 248, 48] =
      Except.ok [1, -2] := by
  rw [show _parseBinaryData [35, 49, 56, 0, 0, 3, 232, 255, 255, 248, 48] =
      Except.ok ([toInt32BE 0 0 3 232, toInt32BE 255 255 248 48].map
        fun (v : ℤ) => (v : ℚ) / 1000) from rfl]
  norm_num [toInt32BE, toUInt32BE]
